import Mathlib

/-!
Shallow embedding of `robosat_pink/tools/rasterize.py` (the rasterize tool):
the WKB raster decoder `wkb_to_numpy`, the GeoJSON spatial-index/burn path
of `main`, and the per-tile PostGIS path of `main`.

A byte stream (Python `io.BytesIO`) is modelled as the list of its not yet
consumed bytes (each a `Nat` below 256); `stream.read(n)` takes up to `n`
bytes off the front and never fails, exactly as in Python, while
`struct.unpack` and `np.ndarray(buffer=...)` fail when the buffer is short.
NumPy arrays keep their raw byte buffers: no claim needs the numeric
reinterpretation of multi-byte elements.
-/

namespace RobosatRasterize

/-- Endianness selected by the decoder: `<` (little) or `>` (big) in
`struct` notation. -/
inductive Endian where
  | little
  | big
deriving DecidableEq, Repr

/-- The signed value `struct.unpack("<b", bytes([b]))[0]` yields for a byte. -/
def sbyte (b : Nat) : Int :=
  if b < 128 then (b : Int) else (b : Int) - 256

/-- Python `==` between a tuple and an int. `struct.unpack` always returns a
tuple, and in Python a tuple never compares equal to an int (tuples implement
equality only against tuples), so the comparison is always `False`. This
models the condition at rasterize.py:86,
`struct.unpack("<b", wkb.read(1)) == 0`, which compares the 1-tuple itself
(not its element) to `0`. -/
def pyEqTupleInt (_t : List Int) (_n : Int) : Bool :=
  false

/-- `struct.unpack("<b", ...)` applied to one byte: a 1-tuple. -/
def struct_unpack_b (b : Nat) : List Int :=
  [sbyte b]

/-- rasterize.py:86 — `endian = ">" if struct.unpack("<b", wkb.read(1)) == 0
else "<"`. Because the unpacked 1-tuple is compared to the int `0`, the
condition is always false and the result is always little-endian. -/
def endianOfFlag (b : Nat) : Endian :=
  if pyEqTupleInt (struct_unpack_b b) 0 then Endian.big else Endian.little

/-- A 16-bit unsigned value from its two bytes in the given byte order
(`struct` format `H`). -/
def u16 (e : Endian) (b0 b1 : Nat) : Nat :=
  match e with
  | Endian.little => b0 + 256 * b1
  | Endian.big => 256 * b0 + b1

/-- rasterize.py:87-89 — `struct.unpack(endian + "HHddddddIHH", wkb.read(60))`.
The layout is: version `H` (2 bytes), band count `H` (2 bytes), six doubles
`d` (48 bytes: scale X/Y, skew X/Y, upper-left X/Y), SRID `I` (4 bytes),
width `H` (2 bytes), height `H` (2 bytes). Only the band count, width and
height are used by the decoder; the others only advance the stream. `none`
models `struct.error` on a buffer shorter than 60 bytes (`read(60)` returns
at most 60, so the 60-element pattern matches exactly the valid case). -/
def unpackHeader (e : Endian) (bs : List Nat) : Option (Nat × Nat × Nat) :=
  match bs with
  | _ :: _ :: n0 :: n1 ::
    _ :: _ :: _ :: _ :: _ :: _ :: _ :: _ ::
    _ :: _ :: _ :: _ :: _ :: _ :: _ :: _ ::
    _ :: _ :: _ :: _ :: _ :: _ :: _ :: _ ::
    _ :: _ :: _ :: _ :: _ :: _ :: _ :: _ ::
    _ :: _ :: _ :: _ :: _ :: _ :: _ :: _ ::
    _ :: _ :: _ :: _ :: _ :: _ :: _ :: _ ::
    _ :: _ :: _ :: _ ::
    w0 :: w1 :: h0 :: h1 :: [] => some (u16 e n0 n1, u16 e w0 w1, u16 e h0 h1)
  | _ => none

/-- The decoded output of `wkb_to_numpy`: the NumPy array
`np.zeros((height, width, bands), dtype)` with each band's raw pixel buffer
(`out[:, :, band] = np.ndarray(..., buffer=...)`) kept as bytes. -/
structure NpArray where
  height : Nat
  width : Nat
  bands : Nat
  dtype : String
  bandsData : List (List Nat)
deriving DecidableEq, Repr

/-- Python exceptions the decoder can raise (all are `Exception`s, unlike
`SystemExit`): `struct.error` on a short unpack buffer, `IndexError` on an
out-of-range list index, `TypeError` when an `np.ndarray` buffer is too
small. -/
inductive PyExc where
  | structError
  | indexError
  | bufferError
deriving DecidableEq, Repr

/-- What a call of `wkb_to_numpy` does: return a value, `sys.exit(msg)`
(raises `SystemExit`, which `except Exception` does not catch), or raise an
ordinary exception. -/
inductive DecodeResult where
  | ok (out : Option NpArray)
  | exit (msg : String)
  | exc (e : PyExc)
deriving DecidableEq, Repr

/-- rasterize.py:97 — `[1, 1, 1, 1, 1, 2, 2, 4, 4, 4, 8]`, the per-pixel
byte widths indexed by the low 4 bits of the band flag byte. -/
def sizeList : List Nat :=
  [1, 1, 1, 1, 1, 2, 2, 4, 4, 4, 8]

/-- rasterize.py:98 — the NumPy dtype strings indexed the same way. -/
def dtypeList : List String :=
  ["b1", "u1", "u1", "i1", "u1", "i2", "u2", "i4", "u4", "f4", "f8"]

/-- `out[:, :, band] = np.ndarray(..., buffer=buf, ...)`: store band `band`'s
raw buffer (bands are visited in order 0, 1, ...). -/
def pushBand (o : Option NpArray) (buf : List Nat) : Option NpArray :=
  match o with
  | none => none
  | some a => some (NpArray.mk a.height a.width a.bands a.dtype (a.bandsData ++ [buf]))

/-- rasterize.py:91-108 — the `for band in range(bands)` loop. The first
argument triple is `(width, height, bands)` from the header; then the
remaining loop count, the current band index, the remaining stream bytes, the
`pixtype` of band 0 once set, and the allocated `out` array.

Per iteration, in source order: `struct.unpack(endian + "b", wkb.read(1))`
(raises `struct.error` on an exhausted stream); `if bool(bits & 128)` —
for the signed byte value `v` of byte `b`, `v & 128 != 0` iff `128 ≤ b`, so
the test is `128 ≤ b` — `sys.exit("OffLine ...")`; the `sizeList`/`dtypeList`
lookups at index `bits & 15 = b % 16` (an `IndexError` for indices 11-15);
`wkb.read(size)` skipping the NoData value (a plain read, it cannot fail);
at band 0 allocate `out` and record `pixtype`, at later bands
`sys.exit("Mixed ...")` when the pixel-type code differs; finally read
`width * height * size` bytes into the band slot (a `TypeError` when the
stream has fewer bytes than the array needs). -/
def bandLoop (w h nb : Nat) :
    Nat → Nat → List Nat → Option Nat → Option NpArray → DecodeResult
  | 0, _, _, _, out => DecodeResult.ok out
  | r + 1, band, s, pixtype, out =>
    match s with
    | [] => DecodeResult.exc PyExc.structError
    | b :: s1 =>
      if 128 ≤ b then DecodeResult.exit "OffLine PostGIS WKB Data not supported."
      else
        match sizeList[b % 16]? with
        | none => DecodeResult.exc PyExc.indexError
        | some size =>
          if band = 0 then
            if ((s1.drop size).take (w * h * size)).length = w * h * size then
              bandLoop w h nb r (band + 1) ((s1.drop size).drop (w * h * size)) (some (b % 16))
                (pushBand (some (NpArray.mk h w nb (dtypeList.getD (b % 16) "") []))
                  ((s1.drop size).take (w * h * size)))
            else DecodeResult.exc PyExc.bufferError
          else if pixtype = some (b % 16) then
            if ((s1.drop size).take (w * h * size)).length = w * h * size then
              bandLoop w h nb r (band + 1) ((s1.drop size).drop (w * h * size)) pixtype
                (pushBand out ((s1.drop size).take (w * h * size)))
            else DecodeResult.exc PyExc.bufferError
          else DecodeResult.exit "Mixed PostGIS WBK Data type not supported."

/-- rasterize.py:74-110 — `wkb_to_numpy(wkb)`. The argument is `none` for a
Python `None` (a `BytesIO` object is always truthy, so `if not wkb` only
catches an absent argument, not an empty stream); otherwise the stream's
bytes. An empty stream reaches `struct.unpack("<b", b"")`, which raises
`struct.error`. A raster declaring zero bands returns `None`: `out` is
allocated only inside the band loop. -/
def wkb_to_numpy : Option (List Nat) → DecodeResult
  | none => DecodeResult.ok none
  | some wkb =>
    match wkb with
    | [] => DecodeResult.exc PyExc.structError
    | e :: rest =>
      match unpackHeader (endianOfFlag e) (rest.take 60) with
      | none => DecodeResult.exc PyExc.structError
      | some (bands, width, height) =>
        bandLoop width height bands bands 0 (rest.drop 60) none none

/-! ### Concrete WKB payload builders (test inputs for the decoder) -/

/-- The two bytes of a 16-bit value, little-endian. -/
def le16 (n : Nat) : List Nat :=
  [n % 256, n / 256 % 256]

/-- The two bytes of a 16-bit value, big-endian. -/
def be16 (n : Nat) : List Nat :=
  [n / 256 % 256, n % 256]

/-- A 60-byte raster header in the `HHddddddIHH` layout, multi-byte fields
little-endian: version 0, the given band count, zeroed scales/skews/origin,
SRID 0, the given width and height. -/
def mkHeader (bands w h : Nat) : List Nat :=
  [0, 0] ++ le16 bands ++ List.replicate 48 0 ++ [0, 0, 0, 0] ++ le16 w ++ le16 h

/-- The same 60-byte header with multi-byte fields big-endian. -/
def mkHeaderBE (bands w h : Nat) : List Nat :=
  [0, 0] ++ be16 bands ++ List.replicate 48 0 ++ [0, 0, 0, 0] ++ be16 w ++ be16 h

/-- One band's bytes for a `w × h` raster: the flag byte, a zeroed NoData
value of the flag's pixel size, and `w * h * size` pixel bytes of value
`fill`. For the out-of-range pixel-type codes 11-15 the size defaults to 1
(the decoder never reads past such a band's flag byte). -/
def mkBand (flag w h fill : Nat) : List Nat :=
  flag ::
    (List.replicate (sizeList.getD (flag % 16) 1) 0 ++
      List.replicate (w * h * sizeList.getD (flag % 16) 1) fill)

/-- A whole WKB raster payload: endianness flag byte, little-endian header,
then the bands given by their flag bytes. -/
def mkWkb (endianFlag w h : Nat) (flags : List Nat) (fill : Nat) : List Nat :=
  endianFlag :: (mkHeader flags.length w h ++ (flags.map fun f => mkBand f w h fill).flatten)

/-! ### GeoJSON path of `main` (rasterize.py:138-191) -/

/-- A web-map tile `mercantile.Tile(x, y, z)`; the cover file yields these. -/
structure Tile where
  z : Int
  x : Int
  y : Int
deriving DecidableEq, Repr

/-- A GeoJSON position: the list of its coordinates (2-D or longer). The
claims under proof do not depend on the numeric type of coordinates, so
integers stand in for the doubles of the source. -/
abbrev Position := List Int

/-- A GeoJSON linear ring: a list of positions. -/
abbrev Ring := List Position

/-- GeoJSON Polygon coordinates: a list of rings. -/
abbrev PolygonCoords := List Ring

/-- rasterize.py:141-142 — each ring's points are rewritten to `[x, y]`
pairs, dropping any further coordinates. GeoJSON positions always carry at
least two coordinates; the source indexes `point[0]` and `point[1]`. -/
def normalizeRing (ring : Ring) : Ring :=
  ring.map fun p => [p.getD 0 0, p.getD 1 0]

/-- The ring-by-ring normalization loop over a polygon's coordinates. -/
def normalizePolygon (poly : PolygonCoords) : PolygonCoords :=
  poly.map normalizeRing

/-- The `collections.defaultdict(list)` keyed by tiles: association list from
a tile to the features appended for it, in append order. -/
abbrev FeatureMap := List (Tile × List PolygonCoords)

/-- `feature_map[tile].append(feature)` on a `defaultdict(list)`: extend the
key's list, or create the key with a one-element list. -/
def fmAppend : FeatureMap → Tile → PolygonCoords → FeatureMap
  | [], t, p => [(t, [p])]
  | (t', ps) :: rest, t, p =>
    if t' = t then (t', ps ++ [p]) :: rest else (t', ps) :: fmAppend rest t p

/-- `tile in feature_map` — key membership, which on a `defaultdict` does not
create an entry. -/
def fmMem (fm : FeatureMap) (t : Tile) : Bool :=
  fm.any fun p => p.1 == t

/-- `feature_map[tile]` where the key is known present (the `[]` default is
what the `defaultdict` would create otherwise). -/
def fmGet (fm : FeatureMap) (t : Tile) : List PolygonCoords :=
  match fm.find? (fun p => p.1 == t) with
  | some p => p.2
  | none => []

/-- rasterize.py:138-150 — `geojson_parse_polygon`. The polygon's rings are
normalized to `[x, y]` pairs, then `supermercado.burntiles.burn` (an external
collaborator, passed in as `burnT`) lists the zoom-level tiles the polygon
footprint covers, and the normalized polygon is appended to each such tile's
feature list. `burnT` returning `none` models `burn` raising `ValueError`:
the handler logs a warning and leaves the feature map unchanged. -/
def geojson_parse_polygon (burnT : PolygonCoords → Option (List Tile))
    (fm : FeatureMap) (poly : PolygonCoords) : FeatureMap :=
  match burnT (normalizePolygon poly) with
  | none => fm
  | some ts => ts.foldl (fun m t => fmAppend m t (normalizePolygon poly)) fm

/-- A GeoJSON geometry as `geojson_parse_geometry` distinguishes them. -/
inductive Geometry where
  | polygon (coords : PolygonCoords)
  | multiPolygon (coords : List PolygonCoords)
  | nonSurfacic (typeName : String)
deriving Repr

/-- rasterize.py:152-163 — `geojson_parse_geometry`: a Polygon is parsed
directly; a MultiPolygon is split into its member polygons, each parsed as
its own Polygon; any other geometry type is logged as skipped and leaves the
feature map unchanged. -/
def geojson_parse_geometry (burnT : PolygonCoords → Option (List Tile))
    (fm : FeatureMap) : Geometry → FeatureMap
  | Geometry.polygon c => geojson_parse_polygon burnT fm c
  | Geometry.multiPolygon cs => cs.foldl (fun m c => geojson_parse_polygon burnT m c) fm
  | Geometry.nonSurfacic _ => fm

/-- A feature's geometry as the ingestion loop sees it: a plain geometry, or
a GeometryCollection expanded into its members (rasterize.py:178-182). -/
inductive GeoFeature where
  | geom (g : Geometry)
  | collection (gs : List Geometry)

/-- rasterize.py:170-182 — the spatial-index build: starting from the empty
`defaultdict`, every feature of every input file is parsed into the feature
map, GeometryCollections first expanded into their member geometries. -/
def buildFeatureMap (burnT : PolygonCoords → Option (List Tile))
    (feats : List GeoFeature) : FeatureMap :=
  feats.foldl
    (fun fm f =>
      match f with
      | GeoFeature.geom g => geojson_parse_geometry burnT fm g
      | GeoFeature.collection gs => gs.foldl (fun m g => geojson_parse_geometry burnT m g) fm)
    []

/-- A NumPy 2-D array as handed to `write_tile`: dimensions, dtype string and
the flat element buffer. -/
structure Raster where
  height : Nat
  width : Nat
  dtype : String
  data : List Nat
deriving DecidableEq, Repr

/-- rasterize.py:189 — `np.zeros(shape=(tile_size, tile_size), dtype=np.uint8)`. -/
def npZerosU8 (n m : Nat) : Raster :=
  Raster.mk n m "u1" (List.replicate (n * m) 0)

/-- rasterize.py:210 — `np.zeros((tile_size, tile_size))`: NumPy's default
element type is float64 when no dtype is given. -/
def npZerosF8 (n m : Nat) : Raster :=
  Raster.mk n m "f8" (List.replicate (n * m) 0)

/-- rasterize.py:185-191 — the rasterize loop over the cover: a tile with an
entry in the feature map is burned by `geojson_tile_burn` (whose core is the
external `rasterio.features.rasterize`, passed in as `burnFn`), any other
tile gets the explicit uint8 zero raster; each result goes to `write_tile`. -/
def rasterizeCover (burnFn : Tile → List PolygonCoords → Nat → Raster)
    (fm : FeatureMap) (cover : List Tile) (tileSize : Nat) : List (Tile × Raster) :=
  cover.map fun t =>
    (t, if fmMem fm t then burnFn t (fmGet fm t) tileSize else npZerosU8 tileSize tileSize)

/-- rasterize.py:165-191 — the GeoJSON branch of `main`: first the cover's
zoom levels are checked against the configured zoom (`sys.exit` on mismatch,
modelled as the `Except.error`, before any feature is read or any raster
written); then the feature map is built and the cover rasterized. -/
def geojsonMainPath (zoom : Int) (cover : List Tile) (feats : List GeoFeature)
    (burnT : PolygonCoords → Option (List Tile))
    (burnFn : Tile → List PolygonCoords → Nat → Raster)
    (tileSize : Nat) : Except String (List (Tile × Raster)) :=
  if cover.all (fun t => t.z == zoom) then
    Except.ok (rasterizeCover burnFn (buildFeatureMap burnT feats) cover tileSize)
  else
    Except.error "With GeoJson input, zoom level and cover tiles z values have to be the same."

/-! ### PostGIS path of `main`, per tile (rasterize.py:207-249) -/

/-- What one tile's `pg.execute(query); pg.fetchone()` can do: raise (caught
by the `except Exception` handler), return no row, or return a row holding a
WKB raster payload. -/
inductive QueryOutcome where
  | failure
  | noRow
  | row (wkb : List Nat)

/-- `np.squeeze(a, axis=2)` as the driver uses it: drops the band axis of a
`(height, width, 1)` array. `none` models the exceptions the call raises —
on a `None` argument, or on an array whose third axis is not of length 1 —
all of them ordinary `Exception`s caught by the per-tile handler. -/
def npSqueezeAxis2 : Option NpArray → Option Raster
  | none => none
  | some a =>
    if a.bands = 1 then some (Raster.mk a.height a.width a.dtype (a.bandsData.getD 0 []))
    else none

/-- rasterize.py:207-249 — one iteration of the PostGIS tile loop.
`raster = np.zeros((tile_size, tile_size))` (float64, no dtype given) is the
default; the try block runs the query and on a returned row replaces the
raster with `np.squeeze(wkb_to_numpy(...), axis=2)`; `except Exception` logs
the "Invalid geometries, skipping" warning and reconnects, after which the
default raster is written. `sys.exit` inside `wkb_to_numpy` raises
`SystemExit`, which `except Exception` does not catch: it aborts the run
(the `Except.error`). The result pairs the raster handed to `write_tile`
with whether the warning was logged. -/
def postgis_tile (tileSize : Nat) (outcome : QueryOutcome) :
    Except String (Raster × Bool) :=
  match outcome with
  | QueryOutcome.failure => Except.ok (npZerosF8 tileSize tileSize, true)
  | QueryOutcome.noRow => Except.ok (npZerosF8 tileSize tileSize, false)
  | QueryOutcome.row bs =>
    match wkb_to_numpy (some bs) with
    | DecodeResult.exit msg => Except.error msg
    | DecodeResult.exc _ => Except.ok (npZerosF8 tileSize tileSize, true)
    | DecodeResult.ok arr =>
      match npSqueezeAxis2 arr with
      | none => Except.ok (npZerosF8 tileSize tileSize, true)
      | some r => Except.ok (r, false)

/-- The dtype of the raster a per-tile result hands to `write_tile` (empty
when the run aborted and nothing is written). -/
def dtypeOf : Except String (Raster × Bool) → String
  | Except.ok (r, _) => r.dtype
  | Except.error _ => ""

/-- Whether a per-tile result logged the per-tile warning. -/
def logsWarning : Except String (Raster × Bool) → Bool
  | Except.ok (_, warn) => warn
  | Except.error _ => false

/-! ### Helper lemmas -/

/-- The `sizeList` lookup succeeds for every index within the 11-entry table. -/
lemma sizeList_lookup (c : Nat) (hc : c ≤ 10) : sizeList[c]? = some (sizeList.getD c 1) := by
  interval_cases c <;> rfl

/-- The `sizeList` lookup fails for every index past the 11-entry table. -/
lemma sizeList_lookup_none (c : Nat) (hc : 11 ≤ c) : sizeList[c]? = none := by
  exact List.getElem?_eq_none hc

/-- A 16-bit value below 2^16 round-trips through its little-endian bytes. -/
lemma u16_le16 (n : Nat) (hn : n < 65536) :
    u16 Endian.little (n % 256) (n / 256 % 256) = n := by
  simp only [u16]
  omega

/-- The built header has the 60-byte layout `unpackHeader` expects, and its
fields read back (in little-endian order, the order the decoder always
uses). -/
lemma unpackHeader_mkHeader (e : Endian) (b w h : Nat) :
    unpackHeader e (mkHeader b w h) =
      some (u16 e (b % 256) (b / 256 % 256), u16 e (w % 256) (w / 256 % 256),
        u16 e (h % 256) (h / 256 % 256)) := rfl

/-- The built header is exactly 60 bytes long. -/
lemma mkHeader_length (b w h : Nat) : (mkHeader b w h).length = 60 := rfl

/-- Initial stream decomposition of a built payload: the decoder consumes
the endianness byte and the 60-byte header (always little-endian, by
`endianOfFlag`), leaving the band loop on the concatenated band bytes with
the loop count, width and height of the builder. -/
lemma wkb_to_numpy_mkWkb (ef w h fill : Nat) (flags : List Nat)
    (hb : flags.length < 65536) (hw : w < 65536) (hh : h < 65536) :
    wkb_to_numpy (some (mkWkb ef w h flags fill)) =
      bandLoop w h flags.length flags.length 0
        ((flags.map fun f => mkBand f w h fill).flatten) none none := by
  show (match (mkHeader flags.length w h ++ (flags.map fun f => mkBand f w h fill).flatten).take 60
          |> unpackHeader (endianOfFlag ef) with
        | none => DecodeResult.exc PyExc.structError
        | some (bands, width, height) =>
          bandLoop width height bands bands 0
            ((mkHeader flags.length w h ++ (flags.map fun f => mkBand f w h fill).flatten).drop 60)
            none none) = _
  rw [List.take_left' (mkHeader_length flags.length w h),
    List.drop_left' (mkHeader_length flags.length w h),
    unpackHeader_mkHeader]
  have he : endianOfFlag ef = Endian.little := rfl
  rw [he, u16_le16 flags.length hb, u16_le16 w hw, u16_le16 h hh]

/-- One in-line band whose pixel-type code `c` is within the lookup table is
consumed whole by the loop: it advances to the next band with `pixtype` set
to `c` (at band 0 this also allocates the output array). -/
lemma bandLoop_good_step (w h nb fill c r band g : Nat) (rest2 : List Nat)
    (pix : Option Nat) (out : Option NpArray)
    (hg : g < 128) (hgc : g % 16 = c) (hc : c ≤ 10)
    (hbp : band = 0 ∨ pix = some c) :
    ∃ out1,
      bandLoop w h nb (r + 1) band (mkBand g w h fill ++ rest2) pix out =
        bandLoop w h nb r (band + 1) rest2 (some c) out1 := by
  have hsz : sizeList[g % 16]? = some (sizeList.getD (g % 16) 1) := by
    rw [hgc]; exact sizeList_lookup c hc
  have hcons : mkBand g w h fill ++ rest2 =
      g :: (List.replicate (sizeList.getD (g % 16) 1) 0 ++
        (List.replicate (w * h * sizeList.getD (g % 16) 1) fill ++ rest2)) := by
    simp [mkBand, List.append_assoc]
  rw [hcons]
  simp only [bandLoop, hsz]
  rw [if_neg (by omega : ¬ 128 ≤ g)]
  rw [List.drop_left' (List.length_replicate _ _),
    List.take_left' (List.length_replicate _ _),
    List.drop_left' (List.length_replicate _ _)]
  rw [List.length_replicate]
  simp only [if_pos rfl]
  rcases hbp with hb0 | hpc
  · subst hb0
    simp only [if_pos rfl, hgc]
    exact ⟨_, rfl⟩
  · by_cases hb0 : band = 0
    · subst hb0
      simp only [if_pos rfl, hgc]
      exact ⟨_, rfl⟩
    · rw [if_neg hb0, hpc, hgc]
      simp only [if_pos rfl]
      exact ⟨_, rfl⟩

/-- A whole prefix of in-line bands sharing the pixel-type code `c` is
consumed by the loop, which then continues on the remaining bands' bytes
with `pixtype = some c` (unless the prefix was empty and left it alone). -/
lemma bandLoop_skip_good (w h nb fill c : Nat) (tail : List Nat) :
    ∀ (good : List Nat) (band extra : Nat) (pix : Option Nat) (out : Option NpArray),
      (∀ g ∈ good, g < 128 ∧ g % 16 = c) → c ≤ 10 → (band = 0 ∨ pix = some c) →
      ∃ out1,
        bandLoop w h nb (good.length + (1 + extra)) band
          ((good.map fun g => mkBand g w h fill).flatten ++ tail) pix out =
        bandLoop w h nb (1 + extra) (band + good.length) tail
          (if good.isEmpty then pix else some c) out1 := by
  intro good
  induction good with
  | nil =>
    intro band extra pix out _ _ _
    refine ⟨out, ?_⟩
    simp
  | cons g gs ih =>
    intro band extra pix out hgood hc hbp
    obtain ⟨hg, hgc⟩ := hgood g (List.mem_cons_self g gs)
    have hlen : (g :: gs).length + (1 + extra) = (gs.length + (1 + extra)) + 1 := by
      simp [List.length_cons]; omega
    rw [hlen]
    have hbytes : ((g :: gs).map fun x => mkBand x w h fill).flatten ++ tail =
        mkBand g w h fill ++ ((gs.map fun x => mkBand x w h fill).flatten ++ tail) := by
      simp
    rw [hbytes]
    obtain ⟨out1, hstep⟩ := bandLoop_good_step w h nb fill c (gs.length + (1 + extra)) band g
      ((gs.map fun x => mkBand x w h fill).flatten ++ tail) pix out hg hgc hc hbp
    rw [hstep]
    obtain ⟨out2, hrest⟩ := ih (band + 1) extra (some c) out1
      (fun x hx => hgood x (List.mem_cons_of_mem g hx)) hc (Or.inr rfl)
    rw [hrest]
    refine ⟨out2, ?_⟩
    have harith : band + 1 + gs.length = band + (g :: gs).length := by
      simp [List.length_cons]; omega
    rw [harith]
    congr 1
    cases gs with
    | nil => simp
    | cons a as => simp

/-- A band whose flag byte has bit 7 set stops the loop with the off-line
`sys.exit`, whatever came before on this band's stream. -/
lemma bandLoop_offline_stop (w h nb r band f : Nat) (s1 : List Nat)
    (pix : Option Nat) (out : Option NpArray) (hf : 128 ≤ f) :
    bandLoop w h nb (r + 1) band (f :: s1) pix out =
      DecodeResult.exit "OffLine PostGIS WKB Data not supported." := by
  simp only [bandLoop]
  rw [if_pos hf]

/-- An in-line band whose pixel-type code is past the 11-entry tables stops
the loop with the `IndexError` of the table lookup. -/
lemma bandLoop_index_stop (w h nb r band f : Nat) (s1 : List Nat)
    (pix : Option Nat) (out : Option NpArray) (hf : f < 128) (hc : 11 ≤ f % 16) :
    bandLoop w h nb (r + 1) band (f :: s1) pix out =
      DecodeResult.exc PyExc.indexError := by
  simp only [bandLoop, sizeList_lookup_none (f % 16) hc]
  rw [if_neg (by omega : ¬ 128 ≤ f)]

/-- An in-line band after band 0 whose in-table pixel-type code differs from
the recorded `pixtype` stops the loop with the mixed-type `sys.exit`. -/
lemma bandLoop_mixed_stop (w h nb r band f c : Nat) (s1 : List Nat)
    (out : Option NpArray) (hf : f < 128) (hc10 : f % 16 ≤ 10)
    (hband : band ≠ 0) (hne : c ≠ f % 16) :
    bandLoop w h nb (r + 1) band (f :: s1) (some c) out =
      DecodeResult.exit "Mixed PostGIS WBK Data type not supported." := by
  simp only [bandLoop, sizeList_lookup (f % 16) hc10]
  rw [if_neg (by omega : ¬ 128 ≤ f), if_neg hband,
    if_neg (by simpa using hne : ¬ (some c = some (f % 16)))]

/-! ### Claim theorems -/

/-- Claim C1 (code_bug): the claim says an endianness flag byte of 0 makes
every subsequent multi-byte read big-endian. In the code,
`struct.unpack("<b", wkb.read(1)) == 0` compares the unpacked 1-tuple itself
to the int 0, which is always false in Python, so the decoder treats every
payload — the flag byte 0 included — as little-endian. The second conjunct
evaluates the decoder on a big-endian payload (flag byte 0, header fields
big-endian, one 8BUI band): a correct big-endian read would decode it as a
1-band 1x1 raster, but the little-endian misread of the band-count, width
and height fields (256 each) makes the band data run out and the call dies
with the buffer TypeError. -/
theorem endianness_flag_is_ignored :
    (∀ b : Nat, endianOfFlag b = Endian.little) ∧
    wkb_to_numpy (some ((0 : Nat) :: (mkHeaderBE 1 1 1 ++ mkBand 4 1 1 7))) =
      DecodeResult.exc PyExc.bufferError := by
  exact ⟨fun _ => rfl, by decide⟩

/-- Claim C2, counterexample: the blank raster the PostGIS path hands to the
tile writer when the per-tile query returns no row is allocated by
`np.zeros((tile_size, tile_size))` with no dtype, so its element type is
NumPy's default float64, not the 8-bit unsigned type the claim states. -/
theorem postgis_blank_raster_not_u8 :
    dtypeOf (postgis_tile 2 QueryOutcome.noRow) = "f8" ∧
    dtypeOf (postgis_tile 2 QueryOutcome.noRow) ≠ "u1" := by
  decide

/-- Claim C2, amended: the GeoJSON path's blank raster is 8-bit unsigned, and
so is the raster decoded from the pipeline's own `'8BUI'` PostGIS query (the
concrete third conjunct decodes a one-band pixel-type-4 payload); but the
blank raster written for a tile whose PostGIS query fails or returns no row
has NumPy's default float64 element type. -/
theorem raster_dtypes_by_path (ts : Nat) :
    (npZerosU8 ts ts).dtype = "u1" ∧
    dtypeOf (postgis_tile ts QueryOutcome.noRow) = "f8" ∧
    dtypeOf (postgis_tile ts QueryOutcome.failure) = "f8" ∧
    dtypeOf (postgis_tile 1 (QueryOutcome.row (mkWkb 1 1 1 [4] 0))) = "u1" := by
  exact ⟨rfl, rfl, rfl, by decide⟩

/-- Witness for the amended C2 at tile size 2. -/
theorem raster_dtypes_by_path_witness :
    (npZerosU8 2 2).dtype = "u1" ∧
    dtypeOf (postgis_tile 2 QueryOutcome.noRow) = "f8" ∧
    dtypeOf (postgis_tile 2 QueryOutcome.failure) = "f8" ∧
    dtypeOf (postgis_tile 1 (QueryOutcome.row (mkWkb 1 1 1 [4] 0))) = "u1" :=
  raster_dtypes_by_path 2

/-- Claim C3, counterexample: when the per-tile PostGIS query executes but
returns an empty result set (`fetchone()` is `None`), no warning is logged —
the `if row:` guard simply leaves the blank raster in place, and the warning
is only emitted by the exception handler. The claim's "logs a warning" part
is false at this concrete input. -/
theorem postgis_no_row_logs_no_warning :
    logsWarning (postgis_tile 2 QueryOutcome.noRow) = false := by
  decide

/-- Claim C3, amended: for every tile whose PostGIS query executes but
returns an empty result set, the run writes an all-zero raster for that tile
and does not abort, but it logs no warning (the warning is logged only when
the per-tile query raises an exception). -/
theorem postgis_no_row_blank_no_abort (ts : Nat) :
    postgis_tile ts QueryOutcome.noRow = Except.ok (npZerosF8 ts ts, false) ∧
    ∀ v ∈ (npZerosF8 ts ts).data, v = 0 := by
  exact ⟨rfl, fun v hv => List.eq_of_mem_replicate hv⟩

/-- Claim C4, counterexample: on an empty (but present) input stream the
decoder does not return null — `if not wkb` is false for any `BytesIO`
object, an io object being truthy regardless of its content, so the decoder
reads on and `struct.unpack("<b", b"")` raises `struct.error`. -/
theorem wkb_empty_stream_raises :
    wkb_to_numpy (some []) ≠ DecodeResult.ok none := by
  decide

/-- Claim C4, amended: an absent input (Python `None`) makes the decoder
return null without an error, but an empty input stream raises a
`struct.error` at the very first (endianness-byte) unpack. -/
theorem wkb_absent_none_empty_raises :
    wkb_to_numpy none = DecodeResult.ok none ∧
    wkb_to_numpy (some []) = DecodeResult.exc PyExc.structError := by
  exact ⟨rfl, rfl⟩

/-- Claim C5: for every band of a WKB raster payload whose flag byte has bit
7 set (band data stored out-of-line), the decoder exits with the
unsupported-format message, never silently skipping the band — here for any
payload whose bands before the offending one are in-line bands sharing one
in-table pixel-type code (so the loop reaches the offending band), whatever
bands follow. The `sys.exit` raises `SystemExit`, which the driver's
`except Exception` does not catch, so the second conjunct shows the whole
PostGIS run aborting on such a payload. -/
theorem wkb_offline_band_aborts_run (w h fill c f ts : Nat) (good restFlags : List Nat)
    (hgood : ∀ g ∈ good, g < 128 ∧ g % 16 = c) (hc : c ≤ 10) (hf : 128 ≤ f)
    (hlen : (good ++ f :: restFlags).length < 65536) (hw : w < 65536) (hh : h < 65536) :
    wkb_to_numpy (some (mkWkb 1 w h (good ++ f :: restFlags) fill)) =
      DecodeResult.exit "OffLine PostGIS WKB Data not supported." ∧
    postgis_tile ts (QueryOutcome.row (mkWkb 1 w h (good ++ f :: restFlags) fill)) =
      Except.error "OffLine PostGIS WKB Data not supported." := by
  have hdec := wkb_to_numpy_mkWkb 1 w h fill (good ++ f :: restFlags) hlen hw hh
  have hfuel : (good ++ f :: restFlags).length = good.length + (1 + restFlags.length) := by
    simp [List.length_append]; omega
  rw [hfuel] at hdec
  have hbytes : ((good ++ f :: restFlags).map fun x => mkBand x w h fill).flatten =
      (good.map fun x => mkBand x w h fill).flatten ++
        ((f :: restFlags).map fun x => mkBand x w h fill).flatten := by
    simp
  rw [hbytes] at hdec
  obtain ⟨out1, hskip⟩ := bandLoop_skip_good w h (good.length + (1 + restFlags.length)) fill c
    (((f :: restFlags).map fun x => mkBand x w h fill).flatten) good 0 restFlags.length
    none none hgood hc (Or.inl rfl)
  rw [hskip] at hdec
  have htail : ((f :: restFlags).map fun x => mkBand x w h fill).flatten =
      f :: ((List.replicate (sizeList.getD (f % 16) 1) 0 ++
        List.replicate (w * h * sizeList.getD (f % 16) 1) fill) ++
        ((restFlags.map fun x => mkBand x w h fill)).flatten) := by
    simp [mkBand]
  rw [htail] at hdec
  have hfuel2 : 1 + restFlags.length = restFlags.length + 1 := by omega
  rw [hfuel2] at hdec
  rw [bandLoop_offline_stop _ _ _ _ _ _ _ _ _ hf] at hdec
  refine ⟨hdec, ?_⟩
  simp only [postgis_tile, hdec]

/-- Witness for C5: a two-band payload whose band 0 is an in-line 8BUI band
and whose band 1 flag byte is 132 (bit 7 set) makes the decoder exit with
the off-line message and makes the PostGIS tile loop abort. -/
theorem wkb_offline_band_aborts_run_witness :
    wkb_to_numpy (some (mkWkb 1 1 1 [4, 132] 0)) =
      DecodeResult.exit "OffLine PostGIS WKB Data not supported." ∧
    postgis_tile 2 (QueryOutcome.row (mkWkb 1 1 1 [4, 132] 0)) =
      Except.error "OffLine PostGIS WKB Data not supported." :=
  wkb_offline_band_aborts_run 1 1 0 4 132 2 [4] []
    (by intro g hg; rcases List.mem_singleton.mp hg with rfl; exact ⟨by omega, rfl⟩)
    (by omega) (by omega) (by decide) (by decide) (by decide)

/-- Claim C6, counterexample: a two-band payload whose band 0 has pixel-type
code 4 and whose band 1 has pixel-type code 11 — a code different from band
0's, exactly the claim's hypothesis — does not fail with the
mixed-pixel-type error: the `sizeList` lookup at index 11 raises an
`IndexError` before the mixed-type check is reached. -/
theorem wkb_differing_code_11_not_mixed_error :
    wkb_to_numpy (some (mkWkb 1 1 1 [4, 11] 0)) = DecodeResult.exc PyExc.indexError ∧
    wkb_to_numpy (some (mkWkb 1 1 1 [4, 11] 0)) ≠
      DecodeResult.exit "Mixed PostGIS WBK Data type not supported." := by
  decide

/-- Claim C6, amended: for every WKB raster payload with at least two bands,
if a band after band 0 has an in-line, in-table pixel-type code (0-10)
different from band 0's — the preceding bands being in-line bands of band
0's code, so the loop reaches it — the decoder exits with the
mixed-pixel-type message (`sys.exit`, aborting the run); a differing band
with code 11-15 instead raises an `IndexError` at the type-table lookup,
before the mixed-type check. -/
theorem wkb_mixed_pixtype_fatal (w h fill c f : Nat) (g0 : Nat) (gs restFlags : List Nat)
    (hgood : ∀ g ∈ g0 :: gs, g < 128 ∧ g % 16 = c) (hc : c ≤ 10)
    (hf : f < 128) (hf10 : f % 16 ≤ 10) (hne : c ≠ f % 16)
    (hlen : ((g0 :: gs) ++ f :: restFlags).length < 65536) (hw : w < 65536) (hh : h < 65536) :
    wkb_to_numpy (some (mkWkb 1 w h ((g0 :: gs) ++ f :: restFlags) fill)) =
      DecodeResult.exit "Mixed PostGIS WBK Data type not supported." := by
  have hdec := wkb_to_numpy_mkWkb 1 w h fill ((g0 :: gs) ++ f :: restFlags) hlen hw hh
  have hfuel : ((g0 :: gs) ++ f :: restFlags).length =
      (g0 :: gs).length + (1 + restFlags.length) := by
    simp [List.length_append]; omega
  rw [hfuel] at hdec
  have hbytes : (((g0 :: gs) ++ f :: restFlags).map fun x => mkBand x w h fill).flatten =
      ((g0 :: gs).map fun x => mkBand x w h fill).flatten ++
        ((f :: restFlags).map fun x => mkBand x w h fill).flatten := by
    simp
  rw [hbytes] at hdec
  obtain ⟨out1, hskip⟩ := bandLoop_skip_good w h ((g0 :: gs).length + (1 + restFlags.length))
    fill c (((f :: restFlags).map fun x => mkBand x w h fill).flatten) (g0 :: gs) 0
    restFlags.length none none hgood hc (Or.inl rfl)
  rw [hskip] at hdec
  have htail : ((f :: restFlags).map fun x => mkBand x w h fill).flatten =
      f :: ((List.replicate (sizeList.getD (f % 16) 1) 0 ++
        List.replicate (w * h * sizeList.getD (f % 16) 1) fill) ++
        ((restFlags.map fun x => mkBand x w h fill)).flatten) := by
    simp [mkBand]
  rw [htail] at hdec
  have hfuel2 : 1 + restFlags.length = restFlags.length + 1 := by omega
  rw [hfuel2] at hdec
  have hempty : (g0 :: gs).isEmpty = false := rfl
  rw [hempty] at hdec
  simp only [if_neg Bool.false_ne_true] at hdec
  rw [bandLoop_mixed_stop _ _ _ _ _ _ _ _ _ hf hf10 (by simp [List.length_cons]) hne] at hdec
  exact hdec

/-- Witness for the amended C6: a two-band payload with pixel-type codes 4
then 5 exits with the mixed-type message. -/
theorem wkb_mixed_pixtype_fatal_witness :
    wkb_to_numpy (some (mkWkb 1 1 1 [4, 5] 0)) =
      DecodeResult.exit "Mixed PostGIS WBK Data type not supported." :=
  wkb_mixed_pixtype_fatal 1 1 0 4 5 4 [] []
    (by intro g hg; rcases List.mem_singleton.mp hg with rfl; exact ⟨by omega, rfl⟩)
    (by omega) (by omega) (by omega) (by omega) (by decide) (by decide) (by decide)

/-- Claim C7: in the GeoJSON path, a cover containing any tile whose zoom
level differs from the configured zoom makes the run abort with the zoom
mismatch message. The check is the first statement of the GeoJSON branch
(rasterize.py:167), so the error is returned before any feature is parsed
into the feature map and before any raster is produced — the `Except.error`
result carries no tile rasters at all. -/
theorem geojson_zoom_mismatch_aborts (zoom : Int) (cover : List Tile)
    (feats : List GeoFeature) (burnT : PolygonCoords → Option (List Tile))
    (burnFn : Tile → List PolygonCoords → Nat → Raster) (tileSize : Nat) (t : Tile)
    (ht : t ∈ cover) (hz : t.z ≠ zoom) :
    geojsonMainPath zoom cover feats burnT burnFn tileSize =
      Except.error "With GeoJson input, zoom level and cover tiles z values have to be the same." := by
  have hall : (cover.all fun u => u.z == zoom) = false := by
    rw [List.all_eq_false]
    exact ⟨t, ht, by simpa using hz⟩
  simp [geojsonMainPath, hall]

/-- Witness for C7: a cover with one tile at zoom 10 against a GeoJSON
source declared at zoom 9 aborts — the spec's own example. -/
theorem geojson_zoom_mismatch_aborts_witness :
    geojsonMainPath 9 [Tile.mk 10 0 0] [] (fun _ => none) (fun _ _ _ => npZerosU8 0 0) 2 =
      Except.error "With GeoJson input, zoom level and cover tiles z values have to be the same." :=
  geojson_zoom_mismatch_aborts 9 [Tile.mk 10 0 0] [] (fun _ => none)
    (fun _ _ _ => npZerosU8 0 0) 2 (Tile.mk 10 0 0) (List.mem_singleton.mpr rfl) (by decide)

/-- Claim C8: every cover tile with no entry in the feature map (zero
assigned features) is written as the explicit
`np.zeros(shape=(tile_size, tile_size), dtype=np.uint8)` raster: all-zero,
square of the configured size, 8-bit unsigned. -/
theorem geojson_no_feature_tile_blank (zoom : Int) (cover : List Tile)
    (feats : List GeoFeature) (burnT : PolygonCoords → Option (List Tile))
    (burnFn : Tile → List PolygonCoords → Nat → Raster) (tileSize : Nat) (t : Tile)
    (hz : (cover.all fun u => u.z == zoom) = true)
    (ht : t ∈ cover)
    (hfm : fmMem (buildFeatureMap burnT feats) t = false) :
    geojsonMainPath zoom cover feats burnT burnFn tileSize =
      Except.ok (rasterizeCover burnFn (buildFeatureMap burnT feats) cover tileSize) ∧
    (t, npZerosU8 tileSize tileSize) ∈
      rasterizeCover burnFn (buildFeatureMap burnT feats) cover tileSize ∧
    (npZerosU8 tileSize tileSize).dtype = "u1" ∧
    (npZerosU8 tileSize tileSize).height = tileSize ∧
    (npZerosU8 tileSize tileSize).width = tileSize ∧
    ∀ v ∈ (npZerosU8 tileSize tileSize).data, v = 0 := by
  refine ⟨by simp [geojsonMainPath, hz], ?_, rfl, rfl, rfl,
    fun v hv => List.eq_of_mem_replicate hv⟩
  unfold rasterizeCover
  exact List.mem_map.mpr ⟨t, ht, by rw [hfm]; rfl⟩

/-- Witness for C8: a one-tile cover with no features at all yields the
2 by 2 all-zero uint8 raster for that tile. -/
theorem geojson_no_feature_tile_blank_witness :
    geojsonMainPath 9 [Tile.mk 9 0 0] [] (fun _ => none) (fun _ _ _ => npZerosU8 0 0) 2 =
      Except.ok (rasterizeCover (fun _ _ _ => npZerosU8 0 0)
        (buildFeatureMap (fun _ => none) []) [Tile.mk 9 0 0] 2) ∧
    (Tile.mk 9 0 0, npZerosU8 2 2) ∈
      rasterizeCover (fun _ _ _ => npZerosU8 0 0)
        (buildFeatureMap (fun _ => none) []) [Tile.mk 9 0 0] 2 ∧
    (npZerosU8 2 2).dtype = "u1" ∧
    (npZerosU8 2 2).height = 2 ∧
    (npZerosU8 2 2).width = 2 ∧
    ∀ v ∈ (npZerosU8 2 2).data, v = 0 :=
  geojson_no_feature_tile_blank 9 [Tile.mk 9 0 0] [] (fun _ => none)
    (fun _ _ _ => npZerosU8 0 0) 2 (Tile.mk 9 0 0) (by decide)
    (List.mem_singleton.mpr rfl) (by decide)

/-- Claim C9: replacing a MultiPolygon feature by its member polygons as
independent Polygon features, in the same position of the ingestion
sequence, leaves the whole GeoJSON pipeline output unchanged — the feature
map built by the spatial index is identical (the MultiPolygon branch of
`geojson_parse_geometry` is exactly the fold of the Polygon branch over its
members), hence every cover tile receives the same raster, for any burn-tile
collaborator and any rasterizer. -/
theorem multipolygon_split_raster_equivalent (zoom : Int) (cover : List Tile)
    (pre post : List GeoFeature) (cs : List PolygonCoords)
    (burnT : PolygonCoords → Option (List Tile))
    (burnFn : Tile → List PolygonCoords → Nat → Raster) (tileSize : Nat) :
    geojsonMainPath zoom cover
      (pre ++ GeoFeature.geom (Geometry.multiPolygon cs) :: post) burnT burnFn tileSize =
    geojsonMainPath zoom cover
      (pre ++ (cs.map fun c => GeoFeature.geom (Geometry.polygon c)) ++ post)
      burnT burnFn tileSize := by
  have hfm : buildFeatureMap burnT (pre ++ GeoFeature.geom (Geometry.multiPolygon cs) :: post) =
      buildFeatureMap burnT
        (pre ++ (cs.map fun c => GeoFeature.geom (Geometry.polygon c)) ++ post) := by
    unfold buildFeatureMap
    rw [List.append_assoc, List.foldl_append, List.foldl_append, List.foldl_cons,
      List.foldl_append]
    congr 1
    rw [List.foldl_map]
    rfl
  unfold geojsonMainPath
  rw [hfm]

/-- Witness for C9: a two-member MultiPolygon versus its two member Polygons
as separate features, on a one-tile cover. -/
theorem multipolygon_split_raster_equivalent_witness :
    geojsonMainPath 9 [Tile.mk 9 0 0]
      ([] ++ GeoFeature.geom (Geometry.multiPolygon [[[[0, 0], [0, 1], [1, 1], [0, 0]]],
        [[[2, 2], [2, 3], [3, 3], [2, 2]]]]) :: [])
      (fun _ => some [Tile.mk 9 0 0]) (fun _ ps _ => npZerosU8 ps.length ps.length) 2 =
    geojsonMainPath 9 [Tile.mk 9 0 0]
      ([] ++ ([[[[0, 0], [0, 1], [1, 1], [0, 0]]],
        [[[2, 2], [2, 3], [3, 3], [2, 2]]]].map fun c => GeoFeature.geom (Geometry.polygon c)) ++ [])
      (fun _ => some [Tile.mk 9 0 0]) (fun _ ps _ => npZerosU8 ps.length ps.length) 2 :=
  multipolygon_split_raster_equivalent 9 [Tile.mk 9 0 0] [] []
    [[[[0, 0], [0, 1], [1, 1], [0, 0]]], [[[2, 2], [2, 3], [3, 3], [2, 2]]]]
    (fun _ => some [Tile.mk 9 0 0]) (fun _ ps _ => npZerosU8 ps.length ps.length) 2

/-- Claim C10: an in-line band whose pixel-type code (the low 4 bits of its
flag byte) is 11 through 15 indexes the 11-entry size and dtype tables out
of range: the decoder raises the plain `IndexError` of the lookup — not a
result and not one of the descriptive `sys.exit` messages — for any payload
whose preceding bands are in-line bands sharing one in-table pixel-type
code, whatever bands follow. -/
theorem wkb_pixtype_11_15_index_error (w h fill c f : Nat) (good restFlags : List Nat)
    (hgood : ∀ g ∈ good, g < 128 ∧ g % 16 = c) (hc : c ≤ 10)
    (hf : f < 128) (hf11 : 11 ≤ f % 16)
    (hlen : (good ++ f :: restFlags).length < 65536) (hw : w < 65536) (hh : h < 65536) :
    wkb_to_numpy (some (mkWkb 1 w h (good ++ f :: restFlags) fill)) =
      DecodeResult.exc PyExc.indexError := by
  have hdec := wkb_to_numpy_mkWkb 1 w h fill (good ++ f :: restFlags) hlen hw hh
  have hfuel : (good ++ f :: restFlags).length = good.length + (1 + restFlags.length) := by
    simp [List.length_append]; omega
  rw [hfuel] at hdec
  have hbytes : ((good ++ f :: restFlags).map fun x => mkBand x w h fill).flatten =
      (good.map fun x => mkBand x w h fill).flatten ++
        ((f :: restFlags).map fun x => mkBand x w h fill).flatten := by
    simp
  rw [hbytes] at hdec
  obtain ⟨out1, hskip⟩ := bandLoop_skip_good w h (good.length + (1 + restFlags.length)) fill c
    (((f :: restFlags).map fun x => mkBand x w h fill).flatten) good 0 restFlags.length
    none none hgood hc (Or.inl rfl)
  rw [hskip] at hdec
  have htail : ((f :: restFlags).map fun x => mkBand x w h fill).flatten =
      f :: ((List.replicate (sizeList.getD (f % 16) 1) 0 ++
        List.replicate (w * h * sizeList.getD (f % 16) 1) fill) ++
        ((restFlags.map fun x => mkBand x w h fill)).flatten) := by
    simp [mkBand]
  rw [htail] at hdec
  have hfuel2 : 1 + restFlags.length = restFlags.length + 1 := by omega
  rw [hfuel2] at hdec
  rw [bandLoop_index_stop _ _ _ _ _ _ _ _ _ hf hf11] at hdec
  exact hdec

/-- Witness for C10: a one-band payload with pixel-type code 11 makes the
decoder raise the `IndexError`. -/
theorem wkb_pixtype_11_15_index_error_witness :
    wkb_to_numpy (some (mkWkb 1 1 1 [11] 0)) = DecodeResult.exc PyExc.indexError :=
  wkb_pixtype_11_15_index_error 1 1 0 0 11 [] []
    (by intro g hg; exact absurd hg (List.not_mem_nil g))
    (by omega) (by omega) (by omega) (by decide) (by decide) (by decide)

end RobosatRasterize
